import Mathlib

/-!
# Verification of the thanyaaura-gateway SKU/entitlement engine

Shallow embedding of the decision logic of the gateway:

* `app/agent_tiers.py` — SKU canonicalization and tier classification,
* `app/enterprise_access.py` — the legacy entitlement checker `check_entitlement`,
* `app/main.py` — SKU/slug resolution tables, platform derivation and the
  `require_entitlement_or_403` gate,
* `app/enterprise.py`, `app/individual.py`, `app/entitlements.py` — the
  entitlement resolvers combined by `resolve_entitlements`.

Database tables are modelled as lists of rows carrying exactly the columns the
embedded queries read; SQL `NULL` text columns are modelled as `Option String`
where a query distinguishes `NULL`, and as `""` where the code itself coalesces
(`or ""`).

Python string operations are embedded as structurally recursive functions over
`String.data` (the character list), so that every definition evaluates inside
the kernel: `strip` ↦ `pyStrip`, `lower`/`upper` ↦ `pyLower`/`pyUpper`,
slicing ↦ `pyDrop`/`pyDropRight`, `startswith`/`endswith` ↦
`pyStartsWith`/`pyEndsWith`, `replace` ↦ `pyReplace`, `in` ↦ `pyContains`.
All data handled by the gateway is ASCII, where these agree with Python.
-/

namespace Gateway

/-! ## Python string primitives over character lists -/

/-- Python `s.lower()` (ASCII). -/
def pyLower (s : String) : String :=
  ⟨s.data.map Char.toLower⟩

/-- Python `s.upper()` (ASCII). -/
def pyUpper (s : String) : String :=
  ⟨s.data.map Char.toUpper⟩

/-- Python `s.strip()`: drop leading and trailing whitespace. -/
def pyStrip (s : String) : String :=
  ⟨((s.data.dropWhile Char.isWhitespace).reverse.dropWhile Char.isWhitespace).reverse⟩

/-- Python `s.startswith(p)`. -/
def pyStartsWith (s p : String) : Bool :=
  p.data.isPrefixOf s.data

/-- Python `s.endswith(p)`. -/
def pyEndsWith (s p : String) : Bool :=
  p.data.reverse.isPrefixOf s.data.reverse

/-- Python slicing `s[n:]` (by characters). -/
def pyDrop (s : String) (n : Nat) : String :=
  ⟨s.data.drop n⟩

/-- Python slicing `s[:-n]` (by characters, for `n ≤ len(s)`). -/
def pyDropRight (s : String) (n : Nat) : String :=
  ⟨s.data.take (s.data.length - n)⟩

/-- Occurrence of `sub` as a contiguous run inside `l`. -/
def listInfix (sub : List Char) : List Char → Bool
  | [] => sub.isEmpty
  | c :: rest => sub.isPrefixOf (c :: rest) || listInfix sub rest

/-- Python substring containment `sub in s`. -/
def pyContains (s sub : String) : Bool :=
  listInfix sub.data s.data

/-- Left-to-right, non-overlapping replacement of `sep` by `rep`
(fuel-indexed so that it is structurally recursive; `fuel = l.length`
always suffices for nonempty `sep`). -/
def replaceAux (sep rep : List Char) : Nat → List Char → List Char
  | 0, l => l
  | _ + 1, [] => []
  | fuel + 1, c :: rest =>
    if sep.isPrefixOf (c :: rest) then
      rep ++ replaceAux sep rep fuel ((c :: rest).drop sep.length)
    else
      c :: replaceAux sep rep fuel rest

/-- Python `s.replace(sep, rep)` (all occurrences, left to right). -/
def pyReplace (s sep rep : String) : String :=
  ⟨replaceAux sep.data rep.data s.data.length s.data⟩

/-! ## app/agent_tiers.py -/

/-- `STANDARD_SET` of `app/agent_tiers.py`. -/
def STANDARD_SET : List String :=
  ["single_cf", "project_cf", "enterprise_cf",
   "scf", "pcf", "entcf",
   "revenue_standard", "revs",
   "budget_standard", "buds",
   "capex_standard", "capexs",
   "fx_standard", "fxs",
   "cost_standard", "costs",
   "report_standard", "reps",
   "variance_standard", "vars",
   "margin_standard", "mars",
   "forecast_standard", "fors",
   "decision_standard", "decs"]

/-- `PLUS_SET` of `app/agent_tiers.py`. -/
def PLUS_SET : List String :=
  ["revenue_intermediate", "revp",
   "budget_plus", "budp",
   "capex_plus", "capexp",
   "fx_plus", "fxp",
   "cost_plus", "costp",
   "report_plus", "repp",
   "variance_plus", "varp",
   "margin_plus", "marp",
   "forecast_plus", "forp",
   "decision_plus", "decp"]

/-- `PREMIUM_SET` of `app/agent_tiers.py`. -/
def PREMIUM_SET : List String :=
  ["revenue_advance", "revpr",
   "budget_premium", "budpr",
   "capex_premium", "capexpr",
   "fx_premium", "fxpr",
   "cost_premium", "costpr",
   "report_premium", "reppr",
   "variance_premium", "varpr",
   "margin_premium", "marpr",
   "forecast_premium", "forpr",
   "decision_premium", "decpr"]

/-- `_canon` of `app/agent_tiers.py`: strip + lowercase, strip a `module-0-`
namespace, then strip the `_gemini`, `_ms` and `_ai_agent` suffixes (each
at most once, in this order). -/
def agentTiersCanon (s : String) : String :=
  let s1 := pyLower (pyStrip s)
  let s2 := if pyStartsWith s1 "module-0-" then pyDrop s1 9 else s1
  let s3 := if pyEndsWith s2 "_gemini" then pyDropRight s2 7 else s2
  let s4 := if pyEndsWith s3 "_ms" then pyDropRight s3 3 else s3
  if pyEndsWith s4 "_ai_agent" then pyDropRight s4 9 else s4

/-- `classify_agent_tier` of `app/agent_tiers.py`. -/
def classifyAgentTier (agentSlugOrSku : String) : String :=
  let s := agentTiersCanon agentSlugOrSku
  if PREMIUM_SET.contains s then "PREMIUM"
  else if PLUS_SET.contains s then "PLUS"
  else "STANDARD"

/-! ## app/enterprise_access.py — pure helpers -/

/-- `_email_domain` of `app/enterprise_access.py`:
`email.split("@", 1)[1].lower()` — everything after the first `"@"`,
lowercased; `None` when there is no `"@"`. -/
def emailDomain (email : String) : Option String :=
  if email.data.contains '@' then
    some (pyLower ⟨(email.data.dropWhile (fun c => c != '@')).tail⟩)
  else none

/-- `_tier_from_slug` of `app/enterprise_access.py`: derive a tier from an
upper-cased slug suffix (`_STANDARD` / `_PLUS` / `_INTERMEDIATE` /
`_PREMIUM` / `_ADVANCE`), `None` otherwise. -/
def tierFromSlug (agentSlug : String) : Option String :=
  let s := pyUpper agentSlug
  if pyEndsWith s "_STANDARD" then some "STANDARD"
  else if pyEndsWith s "_PLUS" || pyEndsWith s "_INTERMEDIATE" then some "PLUS"
  else if pyEndsWith s "_PREMIUM" || pyEndsWith s "_ADVANCE" then some "PREMIUM"
  else none

/-- The normalization `_platform_match` applies to each side: strip, and
collapse any platform starting with `"Copilot"` to `"Copilot"`. -/
def copilotCollapse (p : String) : String :=
  let t := pyStrip p
  if pyStartsWith t "Copilot" then "Copilot" else t

/-- `_platform_match` of `app/enterprise_access.py`: after collapsing
`Copilot*` on both sides, the request side is a wildcard when empty,
otherwise the two collapsed strings must be equal (case-sensitively). -/
def platformMatch (requestPlatform rowPlatform : String) : Bool :=
  let rp := copilotCollapse requestPlatform
  let lp := copilotCollapse rowPlatform
  rp == "" || rp == lp

/-! ## Grant-store model

One list of rows per table, carrying the columns the embedded queries read.
`subscriptions` rows are read by `db.fetch_subscriptions` and by the
`en_*` fallback of `db.get_active_enterprise_license_for_domain`;
`entitlements`, `tier_subscriptions` and `enterprise_licenses` rows are read
by the email-level fallback queries of `app/enterprise_access.py` and by the
resolvers of `app/entitlements.py` / `app/enterprise.py`. -/

/-- A `subscriptions` row. -/
structure SubRow where
  user_email : String
  sku : String
  platform : String
  status : String
  created_at : Nat

/-- An `entitlements` row (email-level agent entitlement). -/
structure EntRow where
  email : String
  agent_slug : String
  sku : String
  platform : String

/-- A `tier_subscriptions` row. -/
structure TierRow where
  email : String
  tier_code : String
  platform : String

/-- An `enterprise_licenses` row.  The write path
(`db.upsert_enterprise_license`) populates `domain`, `sku`, `tier_code`,
`active` and `activated_at`; the `email` and `platform` columns queried by
`_has_enterprise_email` are modelled as `Option` (SQL `NULL` never matches
a `LOWER(col) = LOWER(%s)` filter). -/
structure LicRow where
  email : Option String
  domain : String
  sku : String
  tier_code : Option String
  platform : Option String
  active : Bool
  activated_at : Nat

/-- The grant store. -/
structure DB where
  subscriptions : List SubRow
  entitlements : List EntRow
  tier_subscriptions : List TierRow
  enterprise_licenses : List LicRow

/-- Which of the five lookups of `check_entitlement` can reach the
database.  Every call site catches exceptions, so an unavailable lookup
behaves as returning no rows / `None` / `False`. -/
structure Avail where
  fastPath : Bool
  agentLookup : Bool
  tierLookup : Bool
  entEmailLookup : Bool
  domainLookup : Bool

/-- All lookups reach the database. -/
def availAll : Avail := ⟨true, true, true, true, true⟩

/-- No lookup reaches the database (store fully unavailable). -/
def availNone : Avail := ⟨false, false, false, false, false⟩

/-! ## app/enterprise_access.py — lookups and `check_entitlement` -/

/-- Step 1 of `check_entitlement`: among `db.fetch_subscriptions(email)`
(`WHERE user_email = %s`, case-sensitive), an `active` row with
`sku == "all"` whose platform matches `_platform_match`. -/
def ruleAllGrant (db : DB) (email platform : String) : Bool :=
  db.subscriptions.any fun r =>
    r.user_email == email && r.status == "active" && r.sku == "all" &&
      platformMatch platform r.platform

/-- `_has_agent_entitlement_email`: an `entitlements` row matching the email,
the slug (against the `agent_slug` column, or against the `sku` column) and
the platform, all case-insensitively. -/
def hasAgentEntitlementEmail (db : DB) (email slug platform : String) : Bool :=
  (db.entitlements.any fun r =>
    pyLower r.email == pyLower email && pyLower r.agent_slug == pyLower slug &&
      pyLower r.platform == pyLower platform) ||
  (db.entitlements.any fun r =>
    pyLower r.email == pyLower email && pyLower r.sku == pyLower slug &&
      pyLower r.platform == pyLower platform)

/-- `_has_any_tier_for_platform`: a `tier_subscriptions` row for this email
and platform (case-insensitive equality), with no condition on the tier. -/
def hasAnyTierForPlatform (db : DB) (email platform : String) : Bool :=
  db.tier_subscriptions.any fun r =>
    pyLower r.email == pyLower email && pyLower r.platform == pyLower platform

/-- `_has_enterprise_email`: an `enterprise_licenses` row whose `email` and
`platform` columns are non-NULL and match case-insensitively. -/
def hasEnterpriseEmail (db : DB) (email platform : String) : Bool :=
  db.enterprise_licenses.any fun r =>
    match r.email, r.platform with
    | some e, some p => pyLower e == pyLower email && pyLower p == pyLower platform
    | _, _ => false

/-- The row `ORDER BY <key> DESC LIMIT 1` returns: a row with the maximal
key (the earliest such row in list order on ties). -/
def pickLatest {α : Type} (key : α → Nat) : List α → Option α
  | [] => none
  | x :: rest =>
    match pickLatest key rest with
    | none => some x
    | some y => if key y > key x then some y else some x

/-- SQL `split_part(s, '@', 2)`: the text between the first and second `@`,
or `""` when there is no `@`. -/
def splitPart2At (s : String) : String :=
  if s.data.contains '@' then
    ⟨(s.data.dropWhile (fun c => c != '@')).tail.takeWhile (fun c => c != '@')⟩
  else ""

/-- The dictionary `db.get_active_enterprise_license_for_domain` returns. -/
structure LicResult where
  sku : String
  platform : String
  tier_code : Option String

/-- `db.get_active_enterprise_license_for_domain`: the latest-activated
active `enterprise_licenses` row for the domain (reported with platform
`"Copilot"`), else the latest active `en_*` `subscriptions` row whose email
domain matches. -/
def getActiveEnterpriseLicenseForDomain (db : DB) (domain : String) :
    Option LicResult :=
  let d := pyStrip (pyLower domain)
  if d == "" then none
  else
    match pickLatest (fun r => r.activated_at)
        (db.enterprise_licenses.filter fun r => r.domain == d && r.active) with
    | some r => some ⟨r.sku, "Copilot", r.tier_code⟩
    | none =>
      match pickLatest (fun r => r.created_at)
          (db.subscriptions.filter fun r =>
            r.status == "active" &&
            (r.sku == "en_standard" || r.sku == "en_professional" ||
              r.sku == "en_unlimited") &&
            pyLower (splitPart2At r.user_email) == pyLower d) with
      | some r => some ⟨r.sku, r.platform, none⟩
      | none => none

/-- Step 3 of `check_entitlement`: the domain-level enterprise license rule.
Reachable only for a platform starting with `"Copilot"`; an `en_standard`
license admits only agents whose suffix-derived tier (default `"STANDARD"`)
is `"STANDARD"`, `en_professional` / `en_unlimited` admit every agent. -/
def enterpriseDomainStep (domainAvail : Bool) (db : DB)
    (email slug platform : String) : Bool :=
  if !(pyStartsWith platform "Copilot") then false
  else
    match emailDomain email with
    | none => false
    | some d =>
      if d == "" then false
      else
        match (if domainAvail then getActiveEnterpriseLicenseForDomain db d
               else none) with
        | none => false
        | some ent =>
          if !(platformMatch platform ent.platform) then false
          else
            let lic := pyLower ent.sku
            let agentTier := (tierFromSlug slug).getD "STANDARD"
            if lic == "en_standard" then agentTier == "STANDARD"
            else if lic == "en_professional" || lic == "en_unlimited" then true
            else false

/-- `check_entitlement` of `app/enterprise_access.py`: first-match over
(1) individual `"all"` grant, (2.1) email-level agent entitlement,
(2.2) any tier subscription on the platform, (2.3) email-level enterprise
license, (3) domain-level enterprise license. -/
def checkEntitlement (av : Avail) (db : DB) (email slug platform : String) :
    Bool :=
  if av.fastPath && ruleAllGrant db email platform then true
  else if av.agentLookup && hasAgentEntitlementEmail db email slug platform then true
  else if av.tierLookup && hasAnyTierForPlatform db email platform then true
  else if av.entEmailLookup && hasEnterpriseEmail db email platform then true
  else enterpriseDomainStep av.domainLookup db email slug platform

/-! ## app/main.py — SKU resolution tables and platform derivation -/

/-- `_drop_module0` of `app/main.py`: strip + lowercase, then drop a leading
`module-0-`. -/
def dropModule0 (s : String) : String :=
  let s1 := pyLower (pyStrip s)
  if pyStartsWith s1 "module-0-" then pyDrop s1 9 else s1

/-- `_BASE_FALLBACK` of `app/main.py`: base alias/slug → agent identity. -/
def BASE_FALLBACK : List (String × String) :=
  [("cfs", "SINGLE_CF_AI_AGENT"),
   ("cfp", "PROJECT_CF_AI_AGENT"),
   ("cfpr", "ENTERPRISE_CF_AI_AGENT"),
   ("single_cf", "SINGLE_CF_AI_AGENT"),
   ("project_cf", "PROJECT_CF_AI_AGENT"),
   ("enterprise_cf", "ENTERPRISE_CF_AI_AGENT"),
   ("revs", "REVENUE_STANDARD"),
   ("revp", "REVENUE_INTERMEDIATE"),
   ("revpr", "REVENUE_ADVANCE"),
   ("revenue_standard", "REVENUE_STANDARD"),
   ("revenue_intermediate", "REVENUE_INTERMEDIATE"),
   ("revenue_advance", "REVENUE_ADVANCE"),
   ("capexs", "CAPEX_STANDARD"),
   ("capexp", "CAPEX_PLUS"),
   ("capexpr", "CAPEX_PREMIUM"),
   ("capex_standard", "CAPEX_STANDARD"),
   ("capex_plus", "CAPEX_PLUS"),
   ("capex_premium", "CAPEX_PREMIUM"),
   ("fxs", "FX_STANDARD"),
   ("fxp", "FX_PLUS"),
   ("fxpr", "FX_PREMIUM"),
   ("fx_standard", "FX_STANDARD"),
   ("fx_plus", "FX_PLUS"),
   ("fx_premium", "FX_PREMIUM"),
   ("costs", "COST_STANDARD"),
   ("costp", "COST_PLUS"),
   ("costpr", "COST_PREMIUM"),
   ("cost_standard", "COST_STANDARD"),
   ("cost_plus", "COST_PLUS"),
   ("cost_premium", "COST_PREMIUM"),
   ("buds", "BUDGET_STANDARD"),
   ("budp", "BUDGET_PLUS"),
   ("budpr", "BUDGET_PREMIUM"),
   ("budget_standard", "BUDGET_STANDARD"),
   ("budget_plus", "BUDGET_PLUS"),
   ("budget_premium", "BUDGET_PREMIUM"),
   ("reps", "REPORT_STANDARD"),
   ("repp", "REPORT_PLUS"),
   ("reppr", "REPORT_PREMIUM"),
   ("report_standard", "REPORT_STANDARD"),
   ("report_plus", "REPORT_PLUS"),
   ("report_premium", "REPORT_PREMIUM"),
   ("vars", "VARIANCE_STANDARD"),
   ("varp", "VARIANCE_PLUS"),
   ("varpr", "VARIANCE_PREMIUM"),
   ("variance_standard", "VARIANCE_STANDARD"),
   ("variance_plus", "VARIANCE_PLUS"),
   ("variance_premium", "VARIANCE_PREMIUM"),
   ("mars", "MARGIN_STANDARD"),
   ("marp", "MARGIN_PLUS"),
   ("marpr", "MARGIN_PREMIUM"),
   ("margin_standard", "MARGIN_STANDARD"),
   ("margin_plus", "MARGIN_PLUS"),
   ("margin_premium", "MARGIN_PREMIUM"),
   ("fors", "FORECAST_STANDARD"),
   ("forp", "FORECAST_PLUS"),
   ("forpr", "FORECAST_PREMIUM"),
   ("forecast_standard", "FORECAST_STANDARD"),
   ("forecast_plus", "FORECAST_PLUS"),
   ("forecast_premium", "FORECAST_PREMIUM"),
   ("decs", "DECISION_STANDARD"),
   ("decp", "DECISION_PLUS"),
   ("decpr", "DECISION_PREMIUM"),
   ("decision_standard", "DECISION_STANDARD"),
   ("decision_plus", "DECISION_PLUS"),
   ("decision_premium", "DECISION_PREMIUM")]

/-- `FALLBACK_SKU_TO_AGENT` of `app/main.py`: the base table, its
`module-0-` / `_gemini` / `_ms` variants (all mapping to the same agent),
and the three `en_*` enterprise-license SKUs.  All keys are distinct, so
association-list lookup models the Python dict. -/
def FALLBACK_SKU_TO_AGENT : List (String × String) :=
  BASE_FALLBACK ++
  (BASE_FALLBACK.map fun kv => ("module-0-" ++ kv.1, kv.2)) ++
  (BASE_FALLBACK.map fun kv => (kv.1 ++ "_gemini", kv.2)) ++
  (BASE_FALLBACK.map fun kv => (kv.1 ++ "_ms", kv.2)) ++
  [("en_standard", "ENTERPRISE_LICENSE_STANDARD"),
   ("en_professional", "ENTERPRISE_LICENSE_PRO"),
   ("en_unlimited", "ENTERPRISE_LICENSE_UNLIMITED")]

/-- `resolve_agent_slug` of `app/main.py`.  In the deployed tree
`app/agents.py` exports no `get_agent_slug_from_sku` and no
`AGENT_SKU_TO_AGENT`, so the import fails, `_resolve_with_table` always
returns `None`, and resolution reduces to `_resolve_with_fallback`:
try the stripped lowercase SKU, then its `module-0-`-stripped form, then
that form with `module-0-` re-applied. -/
def resolveAgentSlug (sku : String) : Option String :=
  let s := pyLower (pyStrip sku)
  (FALLBACK_SKU_TO_AGENT.lookup s).orElse fun _ =>
    (FALLBACK_SKU_TO_AGENT.lookup (dropModule0 s)).orElse fun _ =>
      FALLBACK_SKU_TO_AGENT.lookup ("module-0-" ++ dropModule0 s)

/-- `_norm_platform_tag` of `app/main.py`: collapse spellings to the three
canonical families, pass unknown non-empty tags through stripped. -/
def normPlatformTag (tag : String) : Option String :=
  if tag == "" then none
  else
    let t := pyStrip tag
    let u := pyUpper t
    if u == "MS" || u == "MICROSOFT" || u == "COPILOT" ||
        pyStartsWith u "COPILOT" then some "Copilot"
    else if pyStartsWith u "GEMINI" then some "Gemini"
    else if u == "GPT" || u == "OPENAI" || u == "CHATGPT" then some "GPT"
    else some t

/-- `derive_platform_from_sku` of `app/main.py`: `_gemini` suffix →
`"Gemini"`, `_ms` suffix → `"Copilot"`, `en_` start → `"Copilot"`,
otherwise `"GPT"` (empty input → `"unknown"`). -/
def derivePlatformFromSku (sku : String) : String :=
  if sku == "" then "unknown"
  else
    let s := pyLower sku
    if pyEndsWith s "_gemini" then "Gemini"
    else if pyEndsWith s "_ms" then "Copilot"
    else if pyStartsWith s "en_" then "Copilot"
    else "GPT"

/-- `STANDARD_BASE` of `app/main.py`: base SKUs an `Enterprise-Standard`
plan may run. -/
def STANDARD_BASE : List String :=
  ["cfs", "cfp", "cfpr",
   "revs", "capexs", "fxs", "costs",
   "buds", "reps", "vars", "mars", "fors", "decs"]

/-! ## app/enterprise.py — enterprise entitlement resolver -/

/-- `RANK` of `app/enterprise.py`. -/
def ENTERPRISE_RANK : List (String × Int) :=
  [("Enterprise-Standard", 40), ("Enterprise-Professional", 50),
   ("Enterprise-Unlimited", 60)]

/-- Python `TABLE.get(p, -1)` for the rank dictionaries. -/
def rankOf (table : List (String × Int)) (p : String) : Int :=
  (table.lookup p).getD (-1)

/-- `_plan_from_en_sku` of `app/enterprise.py` (pattern-based): any `en_*`
SKU maps to a plan, by `unlimited` / `professional` / `_pro` content,
defaulting to `Enterprise-Standard`. -/
def planFromEnSkuLoose (sku : String) : Option String :=
  let s := pyStrip (pyLower sku)
  if !(pyStartsWith s "en_") then none
  else if pyContains s "unlimited" then some "Enterprise-Unlimited"
  else if pyContains s "professional" || pyEndsWith s "_pro" || s == "en_pro" then
    some "Enterprise-Professional"
  else some "Enterprise-Standard"

/-- `_plan_from_tier_code` of `app/enterprise.py`. -/
def planFromTierCodeEnterprise (tier : Option String) : Option String :=
  match tier with
  | none => none
  | some t0 =>
    let t := pyUpper (pyStrip t0)
    if t == "UNLIMITED" then some "Enterprise-Unlimited"
    else if t == "PROFESSIONAL" then some "Enterprise-Professional"
    else if t == "STANDARD" then some "Enterprise-Standard"
    else none

/-- The running-maximum loop of `_pick_highest` (shared shape of
`app/enterprise.py`, `app/individual.py` and the fallback loops of
`app/entitlements.py`): accumulator holds the best plan and its rank. -/
def pickHighestAux (rank : String → Int) :
    List String → Option String × Int → Option String × Int
  | [], acc => acc
  | p :: rest, acc =>
    if rank p > acc.2 then pickHighestAux rank rest (some p, rank p)
    else pickHighestAux rank rest acc

/-- `_pick_highest`: maximum-rank plan (first occurrence wins ties),
`None` when no element beats rank `-1`. -/
def pickHighest (rank : String → Int) (l : List String) : Option String :=
  (pickHighestAux rank l (none, -1)).1

/-- `_plans_from_enterprise_licenses` of `app/enterprise.py`: the active
rows for the domain, each mapped via `tier_code` first, then the SKU
pattern.  (The SQL `ORDER BY activated_at DESC` cannot change which plan
`_pick_highest` selects, since distinct plans have distinct ranks.) -/
def plansFromEnterpriseLicenses (db : DB) (domain : String) : List String :=
  let d := pyLower (pyStrip domain)
  if d == "" then []
  else
    (db.enterprise_licenses.filter fun r => r.domain == d && r.active).filterMap
      fun r =>
        match planFromTierCodeEnterprise r.tier_code with
        | some p => some p
        | none => planFromEnSkuLoose r.sku

/-- SQL `sku ILIKE 'en_%'`: case-insensitively `"en"`, then any one
character, then anything (`_` is the single-character wildcard). -/
def ilikeEnAny (sku : String) : Bool :=
  pyStartsWith (pyLower sku) "en" && sku.data.length ≥ 3

/-- `_extract_domain` of `app/enterprise.py`. -/
def extractDomain (email : String) : Option String :=
  let e := pyLower (pyStrip email)
  if e.data.contains '@' then some ⟨(e.data.dropWhile (fun c => c != '@')).tail⟩
  else none

/-- The entitlement dictionary `app/enterprise.py` returns; its `scope` is
always `"enterprise"`, and only the `plan` field is consulted downstream. -/
structure EnterpriseEnt where
  plan : Option String
  deriving DecidableEq

/-- `entitlements_for_email` of `app/enterprise.py`: the highest plan from
the domain's active `enterprise_licenses` rows, else from the email's own
active `en_*` `subscriptions` rows, else `None`. -/
def enterpriseEntitlementsForEmail (db : DB) (email : String) :
    Option EnterpriseEnt :=
  let e := pyLower (pyStrip email)
  if e == "" then none
  else
    match extractDomain e with
    | none => none
    | some domain =>
      if domain == "" then none
      else
        let plans := plansFromEnterpriseLicenses db domain
        if !plans.isEmpty then
          some ⟨pickHighest (rankOf ENTERPRISE_RANK) plans⟩
        else
          let subPlans := (db.subscriptions.filter fun r =>
              r.user_email == e && r.status == "active" && ilikeEnAny r.sku).filterMap
            fun r => planFromEnSkuLoose r.sku
          if subPlans.isEmpty then none
          else some ⟨pickHighest (rankOf ENTERPRISE_RANK) subPlans⟩

/-! ## app/individual.py — individual entitlement resolver -/

/-- `TIER_ALIASES` of `app/individual.py`. -/
def TIER_ALIASES : List (String × String) :=
  [("standard", "Standard"), ("tier_standard", "Standard"),
   ("plus", "Plus"), ("tier_plus", "Plus"),
   ("premium", "Premium"), ("tier_premium", "Premium")]

/-- `RANK` of `app/individual.py`. -/
def INDIVIDUAL_RANK : List (String × Int) :=
  [("Standard", 10), ("Plus", 20), ("Premium", 30)]

/-- `_tier_from_sku` of `app/individual.py`. -/
def tierFromSkuAlias (sku : String) : Option String :=
  TIER_ALIASES.lookup (pyLower (pyStrip sku))

/-- Result of `entitlements_for_email` of `app/individual.py`; only the
`plan` field (a plain string) is consulted downstream. -/
structure IndividualEnt where
  plan : String
  deriving DecidableEq

/-- `entitlements_for_email` of `app/individual.py`: `None` without active
subscription rows; otherwise the highest tier among the non-`en_*` rows,
defaulting to `Standard`. -/
def individualEntitlementsForEmail (db : DB) (email : String) :
    Option IndividualEnt :=
  let e := pyLower (pyStrip email)
  if e == "" then none
  else
    let rows := db.subscriptions.filter fun r =>
      r.user_email == e && r.status == "active"
    if rows.isEmpty then none
    else
      let tiers := rows.filterMap fun r =>
        let sku := pyLower r.sku
        if pyStartsWith sku "en_" then none else tierFromSkuAlias sku
      some ⟨(pickHighest (rankOf INDIVIDUAL_RANK) tiers).getD "Standard"⟩

/-! ## app/entitlements.py — combined resolver -/

/-- `PLAN_RANK` of `app/entitlements.py`. -/
def PLAN_RANK : List (String × Int) :=
  [("Standard", 10), ("Plus", 20), ("Premium", 30),
   ("Enterprise-Standard", 40), ("Enterprise-Professional", 50),
   ("Enterprise-Unlimited", 60)]

/-- `_rank` of `app/entitlements.py`: `PLAN_RANK.get(plan or "", -1)`. -/
def planRank (plan : Option String) : Int :=
  (PLAN_RANK.lookup (plan.getD "")).getD (-1)

/-- `_plan_from_en_sku` of `app/entitlements.py` (exact-match version). -/
def planFromEnSkuExact (sku : String) : Option String :=
  let s := pyStrip (pyLower sku)
  if s == "en_standard" then some "Enterprise-Standard"
  else if s == "en_professional" then some "Enterprise-Professional"
  else if s == "en_unlimited" then some "Enterprise-Unlimited"
  else none

/-- `_plan_from_tier_code` of `app/entitlements.py`. -/
def planFromTierCodeExact (tierCode : String) : Option String :=
  let t := pyStrip (pyUpper tierCode)
  if t == "STANDARD" then some "Standard"
  else if t == "PLUS" then some "Plus"
  else if t == "PREMIUM" then some "Premium"
  else none

/-- `_fetch_enterprise_licenses` of `app/entitlements.py`: the non-empty
`sku` values of `enterprise_licenses` rows whose (non-NULL) `email`
matches case-insensitively. -/
def fetchEnterpriseLicenseSkus (db : DB) (email : String) : List String :=
  db.enterprise_licenses.filterMap fun r =>
    match r.email with
    | some e =>
      if pyLower e == pyLower email && r.sku != "" then some r.sku else none
    | none => none

/-- `_resolve_enterprise_fallback` of `app/entitlements.py`: best plan by
`PLAN_RANK` over the email-level license SKUs (the running-maximum loop is
`_pick_highest` with `_rank`). -/
def resolveEnterpriseFallback (db : DB) (email : String) :
    Option EnterpriseEnt :=
  let skus := fetchEnterpriseLicenseSkus db email
  if skus.isEmpty then none
  else
    match pickHighest (fun p => planRank (some p))
        (skus.filterMap planFromEnSkuExact) with
    | some p => some ⟨some p⟩
    | none => none

/-- `_fetch_tier_subscriptions` of `app/entitlements.py`: non-empty
`tier_code` values for the email. -/
def fetchTierCodes (db : DB) (email : String) : List String :=
  db.tier_subscriptions.filterMap fun r =>
    if pyLower r.email == pyLower email && r.tier_code != "" then
      some r.tier_code
    else none

/-- `_fetch_agent_entitlements` of `app/entitlements.py`: the `agent_slug`
column pass, then the `sku` column pass, keeping non-empty values. -/
def fetchAgentEntNames (db : DB) (email : String) : List String :=
  (db.entitlements.filterMap fun r =>
    if pyLower r.email == pyLower email && r.agent_slug != "" then
      some r.agent_slug
    else none) ++
  (db.entitlements.filterMap fun r =>
    if pyLower r.email == pyLower email && r.sku != "" then some r.sku
    else none)

/-- `_resolve_individual_fallback` of `app/entitlements.py`: best tier from
`tier_subscriptions`; without one, `Standard` when agent-level entitlement
rows exist; otherwise `None`. -/
def resolveIndividualFallback (db : DB) (email : String) :
    Option IndividualEnt :=
  let tiers := fetchTierCodes db email
  let agents := fetchAgentEntNames db email
  let best := pickHighest (fun p => planRank (some p))
    (tiers.filterMap planFromTierCodeExact)
  let best2 := if best.isNone && !agents.isEmpty then some "Standard" else best
  match best2 with
  | some p => some ⟨p⟩
  | none => none

/-- The normalized result of `resolve_entitlements`; only `scope` and
`plan` matter to the claims. -/
structure ResolvedEnt where
  scope : String
  plan : Option String

/-- The enterprise side of `resolve_entitlements`: the `app/enterprise.py`
resolver, then the email-level DB fallback when it yields `None`. -/
def entEnterpriseCombined (db : DB) (email : String) : Option EnterpriseEnt :=
  match enterpriseEntitlementsForEmail db email with
  | some entE => some entE
  | none => resolveEnterpriseFallback db email

/-- The individual side of `resolve_entitlements`: the `app/individual.py`
resolver, then the DB fallback when it yields `None`. -/
def entIndividualCombined (db : DB) (email : String) : Option IndividualEnt :=
  match individualEntitlementsForEmail db email with
  | some entI => some entI
  | none => resolveIndividualFallback db email

/-- `resolve_entitlements` of `app/entitlements.py`: combine the enterprise
and individual results; with both present, `precedence == "enterprise"`
returns the enterprise one, otherwise the higher `_rank` wins with ties in
favour of the enterprise record. -/
def resolveEntitlements (db : DB) (email precedence : String) : ResolvedEnt :=
  match entEnterpriseCombined db email, entIndividualCombined db email with
  | some entE, none => ⟨"enterprise", entE.plan⟩
  | none, some entI => ⟨"individual", some entI.plan⟩
  | none, none => ⟨"none", none⟩
  | some entE, some entI =>
    if precedence == "enterprise" then ⟨"enterprise", entE.plan⟩
    else if planRank entE.plan ≥ planRank (some entI.plan) then
      ⟨"enterprise", entE.plan⟩
    else ⟨"individual", some entI.plan⟩

/-! ## app/main.py — the `require_entitlement_or_403` gate -/

/-- `_enterprise_allows` of `app/main.py`: enterprise-fallback gating,
reachable only for `Copilot`-platform SKUs; `Enterprise-Standard` admits
only `STANDARD_BASE` bases (after dropping `module-0-` and every `_ms`),
other plans admit everything. -/
def enterpriseAllows (db : DB) (email shortSku : String) : Bool × String :=
  let platform := derivePlatformFromSku shortSku
  if platform != "Copilot" then (false, "not-copilot")
  else
    match enterpriseEntitlementsForEmail db email with
    | none => (false, "no-enterprise-plan")
    | some ent =>
      let plan := pyStrip (ent.plan.getD "")
      let base := pyReplace (dropModule0 shortSku) "_ms" ""
      if plan == "Enterprise-Standard" then
        if STANDARD_BASE.contains base then (true, "enterprise-standard-allow")
        else (false, "enterprise-standard-block")
      else (true, "enterprise-all-allow")

/-- Outcome of `require_entitlement_or_403`: success returns
`(agent_slug, platform)`, failure raises HTTP 403 with a reason.  The
`inputError` constructor stands for the 400-class outcome the error design
reserves for unresolvable input; no path of `require_entitlement_or_403`
produces it. -/
inductive GateResult where
  | ok (agentSlug platform : String)
  | forbidden (reason : String)
  | inputError (detail : String)
  deriving DecidableEq

/-- The body of `require_entitlement_or_403` after slug resolution: try the
legacy checker on the four candidate spellings, then the enterprise
fallback, else 403. -/
def gateWithSlug (av : Avail) (db : DB) (email short agentSlug : String) :
    GateResult :=
  let platform := derivePlatformFromSku short
  if checkEntitlement av db email agentSlug platform ||
      checkEntitlement av db email short platform ||
      checkEntitlement av db email (pyLower agentSlug) platform ||
      checkEntitlement av db email (pyUpper agentSlug) platform then
    GateResult.ok agentSlug platform
  else
    match enterpriseAllows db email short with
    | (true, _) => GateResult.ok agentSlug platform
    | (false, reason) => GateResult.forbidden reason

/-- `require_entitlement_or_403` of `app/main.py` (with the
`DISABLE_ENTITLEMENT_CHECK` bypass off and `check_entitlement` imported):
resolve the agent slug — falling back to the upper-cased short SKU when the
catalog does not know it — and gate. -/
def requireEntitlementOr403 (av : Avail) (db : DB) (email sku : String) :
    GateResult :=
  let short := dropModule0 sku
  gateWithSlug av db email short ((resolveAgentSlug short).getD (pyUpper short))

/-! ## Spec-side definition (for the refinement claim C3)

The four-rule first-match procedure §3 of the spec prescribes, with each
rule taken at the code's own matching semantics: individual `"all"` grant →
individual tier grant → individual specific-agent grant → enterprise domain
license. -/

/-- Modelled from the spec: the fixed four-rule precedence order of the
invariant in §3 / §4.5 (the code's fifth, email-level enterprise-license
rule has no counterpart in that order). -/
def specFourRuleFirstMatch (db : DB) (email slug platform : String) : Bool :=
  if ruleAllGrant db email platform then true
  else if hasAnyTierForPlatform db email platform then true
  else if hasAgentEntitlementEmail db email slug platform then true
  else enterpriseDomainStep true db email slug platform

/-! ## Example grant stores used by counterexamples and witnesses -/

/-- A store holding exactly one tier subscription: `alice@co.com`, tier
`STANDARD`, platform `GPT`. -/
def dbTierStandardGPT : DB :=
  ⟨[], [], [⟨"alice@co.com", "STANDARD", "GPT"⟩], []⟩

/-- A store holding exactly one tier subscription for `bob@x.com` on
`GPT`. -/
def dbTierBobGPT : DB :=
  ⟨[], [], [⟨"bob@x.com", "STANDARD", "GPT"⟩], []⟩

/-- A store holding exactly one `enterprise_licenses` row carrying an
`email` and a non-Copilot `platform` column. -/
def dbEnterpriseEmailRowGPT : DB :=
  ⟨[], [], [], [⟨some "carol@z.com", "z.com", "en_standard", none, some "GPT", true, 0⟩]⟩

/-- A store holding exactly one active individual `"all"` grant on `GPT`. -/
def dbAllGrantGPT : DB :=
  ⟨[⟨"alice@co.com", "all", "GPT", "active", 1⟩], [], [], []⟩

/-- The empty grant store. -/
def dbEmpty : DB :=
  ⟨[], [], [], []⟩

/-- A store where `eve@co.com` holds both an active individual `plus` tier
subscription and (via her domain) an active enterprise standard license. -/
def dbBothScopes : DB :=
  ⟨[⟨"eve@co.com", "plus", "GPT", "active", 1⟩], [], [],
   [⟨none, "co.com", "en_standard", some "STANDARD", none, true, 3⟩]⟩

/-- The 33 canonical agent slugs (the keys of `AGENT_SLUG_TO_CODE` in
`app/agents.py`). -/
def AGENT_SLUGS : List String :=
  ["SINGLE_CF_AI_AGENT", "PROJECT_CF_AI_AGENT", "ENTERPRISE_CF_AI_AGENT",
   "REVENUE_STANDARD", "REVENUE_INTERMEDIATE", "REVENUE_ADVANCE",
   "CAPEX_STANDARD", "CAPEX_PLUS", "CAPEX_PREMIUM",
   "FX_STANDARD", "FX_PLUS", "FX_PREMIUM",
   "COST_STANDARD", "COST_PLUS", "COST_PREMIUM",
   "BUDGET_STANDARD", "BUDGET_PLUS", "BUDGET_PREMIUM",
   "REPORT_STANDARD", "REPORT_PLUS", "REPORT_PREMIUM",
   "VARIANCE_STANDARD", "VARIANCE_PLUS", "VARIANCE_PREMIUM",
   "MARGIN_STANDARD", "MARGIN_PLUS", "MARGIN_PREMIUM",
   "FORECAST_STANDARD", "FORECAST_PLUS", "FORECAST_PREMIUM",
   "DECISION_STANDARD", "DECISION_PLUS", "DECISION_PREMIUM"]

/-! ## Helper lemmas -/

/-- `check_entitlement` is the guarded disjunction of its five rules:
a lookup that cannot reach the store contributes `false` (its result set is
treated as empty) and the remaining rules are still evaluated. -/
theorem checkEntitlement_eq_rules (av : Avail) (db : DB)
    (email slug platform : String) :
    checkEntitlement av db email slug platform =
      ((av.fastPath && ruleAllGrant db email platform) ||
       (av.agentLookup && hasAgentEntitlementEmail db email slug platform) ||
       (av.tierLookup && hasAnyTierForPlatform db email platform) ||
       (av.entEmailLookup && hasEnterpriseEmail db email platform) ||
       enterpriseDomainStep av.domainLookup db email slug platform) := by
  unfold checkEntitlement
  cases h1 : av.fastPath && ruleAllGrant db email platform <;>
    cases h2 : av.agentLookup && hasAgentEntitlementEmail db email slug platform <;>
      cases h3 : av.tierLookup && hasAnyTierForPlatform db email platform <;>
        cases h4 : av.entEmailLookup && hasEnterpriseEmail db email platform <;>
          simp [h1, h2, h3, h4]

/-- With the domain lookup unavailable, rule 3 yields `false`. -/
theorem enterpriseDomainStep_unavailable (db : DB)
    (email slug platform : String) :
    enterpriseDomainStep false db email slug platform = false := by
  unfold enterpriseDomainStep
  cases h1 : pyStartsWith platform "Copilot" <;> simp
  cases h2 : emailDomain email <;> simp

/-- Without `enterprise_licenses` and `subscriptions` rows, the domain
lookup finds nothing. -/
theorem getActiveLicense_none (db : DB) (d : String)
    (h1 : db.enterprise_licenses = []) (h2 : db.subscriptions = []) :
    getActiveEnterpriseLicenseForDomain db d = none := by
  unfold getActiveEnterpriseLicenseForDomain
  rw [h1, h2]
  simp [pickLatest]

/-- Without `enterprise_licenses` and `subscriptions` rows, rule 3 yields
`false`. -/
theorem enterpriseDomainStep_empty (b : Bool) (db : DB)
    (email slug platform : String)
    (h1 : db.enterprise_licenses = []) (h2 : db.subscriptions = []) :
    enterpriseDomainStep b db email slug platform = false := by
  unfold enterpriseDomainStep
  split
  · rfl
  · split
    · rfl
    · rename_i d hd
      split
      · rfl
      · have hnone :
            (if b = true then getActiveEnterpriseLicenseForDomain db d
             else none) = none := by
          cases b <;> simp [getActiveLicense_none db d h1 h2]
        rw [hnone]

/-- The gate never produces the `inputError` outcome. -/
theorem gateWithSlug_ne_inputError (av : Avail) (db : DB)
    (email short agentSlug d : String) :
    gateWithSlug av db email short agentSlug ≠ GateResult.inputError d := by
  unfold gateWithSlug
  rcases hE : enterpriseAllows db email short with ⟨b, reason⟩
  intro hcontra
  cases b <;> rw [ite_eq_iff] at hcontra <;>
    rcases hcontra with ⟨_, h⟩ | ⟨_, h⟩ <;> exact GateResult.noConfusion h

/-! ## Claim theorems -/

/-- **C1** (counterexample): `alice@co.com` holds only a `STANDARD` tier
grant on `GPT`, the target agent `CAPEX_PREMIUM` requires `PREMIUM`
(`STANDARD < PREMIUM`), the platform is held fixed at `GPT` — yet
`check_entitlement` allows: `_has_any_tier_for_platform` never reads the
tier level, so an owned tier below the required tier does not yield Deny. -/
theorem c1_counterexample :
    tierFromSlug "CAPEX_PREMIUM" = some "PREMIUM" ∧
    classifyAgentTier "CAPEX_PREMIUM" = "PREMIUM" ∧
    checkEntitlement availAll dbTierStandardGPT "alice@co.com"
      "CAPEX_PREMIUM" "GPT" = true := by
  refine ⟨?_, ?_, ?_⟩ <;> decide

/-- **C1** (amended): with only tier grants present, the decision equals
"some `tier_subscriptions` row matches the principal's email and the
requested platform case-insensitively" — it allows every agent whatever
the granted tier and the agent's required tier, and denies exactly when no
such row exists. -/
theorem c1_tier_grant_ignores_level (email slug platform : String)
    (rows : List TierRow) :
    checkEntitlement availAll (DB.mk [] [] rows []) email slug platform =
      rows.any (fun r => pyLower r.email == pyLower email &&
        pyLower r.platform == pyLower platform) := by
  rw [checkEntitlement_eq_rules]
  have hstep : enterpriseDomainStep availAll.domainLookup
      (DB.mk [] [] rows []) email slug platform = false :=
    enterpriseDomainStep_empty _ _ _ _ _ rfl rfl
  rw [hstep]
  have h1 : ruleAllGrant (DB.mk [] [] rows []) email platform = false := rfl
  have h2 : hasAgentEntitlementEmail (DB.mk [] [] rows []) email slug
      platform = false := rfl
  have h4 : hasEnterpriseEmail (DB.mk [] [] rows []) email platform = false :=
    rfl
  rw [h1, h2, h4]
  simp only [availAll, Bool.and_false, Bool.true_and, Bool.false_or,
    Bool.or_false]
  rfl

/-- **C3** (counterexample): an `enterprise_licenses` row with matching
`email` and `platform` columns makes `check_entitlement` allow on platform
`GPT`, while first-match evaluation of the four rules of the spec's fixed
precedence order (all → tier → specific agent → domain license) denies:
the code has a fifth, email-level enterprise-license rule. -/
theorem c3_counterexample :
    checkEntitlement availAll dbEnterpriseEmailRowGPT "carol@z.com"
      "CAPEX_PREMIUM" "GPT" = true ∧
    specFourRuleFirstMatch dbEnterpriseEmailRowGPT "carol@z.com"
      "CAPEX_PREMIUM" "GPT" = false :=
  ⟨by decide, by decide⟩

/-- **C3** (amended): the decision equals the disjunction of the five rules
the code evaluates (individual `"all"` grant, email-level specific-agent
entitlement, any-tier subscription, email-level enterprise license,
domain-level enterprise license, in that order); being a disjunction, an
Allow produced by one rule is never downgraded by a later rule. -/
theorem c3_decision_is_disjunction_of_five_rules (db : DB)
    (email slug platform : String) :
    checkEntitlement availAll db email slug platform =
      (ruleAllGrant db email platform ||
       hasAgentEntitlementEmail db email slug platform ||
       hasAnyTierForPlatform db email platform ||
       hasEnterpriseEmail db email platform ||
       enterpriseDomainStep true db email slug platform) := by
  rw [checkEntitlement_eq_rules]
  simp [availAll]

/-- **C5** (counterexample): with every lookup unavailable, a principal who
does hold an active `"all"` grant gets plain `false` — the very value an
entitled=false decision produces on the empty store — instead of a distinct
`UpstreamUnavailable` error (the checker's return type carries no error
outcome at all). -/
theorem c5_counterexample :
    checkEntitlement availNone dbAllGrantGPT "alice@co.com"
      "CAPEX_STANDARD" "GPT" = false ∧
    checkEntitlement availAll dbAllGrantGPT "alice@co.com"
      "CAPEX_STANDARD" "GPT" = true ∧
    checkEntitlement availNone dbAllGrantGPT "alice@co.com"
      "CAPEX_STANDARD" "GPT" =
      checkEntitlement availAll dbEmpty "alice@co.com"
        "CAPEX_STANDARD" "GPT" :=
  ⟨by decide, by decide, by decide⟩

/-- **C5** (amended): each lookup that fails is degraded to the empty
result set while the remaining rules are still evaluated (the decision is
the guarded disjunction of the five rules); but when all lookups are
unavailable the checker returns `false` — indistinguishable from Deny —
rather than surfacing a distinct `UpstreamUnavailable` error. -/
theorem c5_degrade_per_lookup_no_upstream_error :
    (∀ (db : DB) (email slug platform : String),
      checkEntitlement availNone db email slug platform = false) ∧
    (∀ (av : Avail) (db : DB) (email slug platform : String),
      checkEntitlement av db email slug platform =
        ((av.fastPath && ruleAllGrant db email platform) ||
         (av.agentLookup && hasAgentEntitlementEmail db email slug platform) ||
         (av.tierLookup && hasAnyTierForPlatform db email platform) ||
         (av.entEmailLookup && hasEnterpriseEmail db email platform) ||
         enterpriseDomainStep av.domainLookup db email slug platform)) := by
  constructor
  · intro db email slug platform
    rw [checkEntitlement_eq_rules]
    simp [availNone, enterpriseDomainStep_unavailable]
  · exact checkEntitlement_eq_rules

/-- **C6** (counterexample): `_platform_match` holds for an *empty
requested* platform against a non-empty stored one (the wildcard sits on
the requested side, not the stored side), and fails for `"GPT"` vs
`"gpt"` although both normalize to the same family — so equivalence is
not "normalized forms equal, or stored empty in tier-mode". -/
theorem c6_counterexample :
    platformMatch "" "Gemini" = true ∧
    platformMatch "GPT" "gpt" = false ∧
    normPlatformTag "GPT" = normPlatformTag "gpt" ∧
    normPlatformTag "" = none ∧
    normPlatformTag "Gemini" = some "Gemini" := by
  refine ⟨?_, ?_, ?_, ?_, ?_⟩ <;> decide

/-- **C6** (amended): `_platform_match` compares the stripped,
`Copilot*`-collapsed strings case-sensitively, with the empty string acting
as a wildcard on the *requested* side only: an empty requested platform
matches everything, while an empty stored platform matches exactly the
requests that strip to empty.  On the canonical family tokens the
comparison does agree with `_norm_platform_tag`-equality.  (Agent-specific
and tier lookups bypass `_platform_match` entirely and use case-insensitive
string equality, cf. `hasAgentEntitlementEmail` / `hasAnyTierForPlatform`.) -/
theorem c6_platform_equivalence :
    (∀ lp, platformMatch "" lp = true) ∧
    (∀ rp, platformMatch rp "" = (pyStrip rp == "")) ∧
    (["GPT", "Gemini", "Copilot", "Copilot-Enterprise"].all (fun rp =>
      ["GPT", "Gemini", "Copilot", "Copilot-Enterprise"].all (fun lp =>
        platformMatch rp lp == (normPlatformTag rp == normPlatformTag lp)))
      = true) := by
  refine ⟨?_, ?_, by decide⟩
  · intro lp
    have hc : copilotCollapse "" = "" := by decide
    simp only [platformMatch]
    rw [hc]
    simp
  · intro rp
    have hc : copilotCollapse "" = "" := by decide
    simp only [platformMatch]
    rw [hc, Bool.or_self]
    cases hsw : pyStartsWith (pyStrip rp) "Copilot"
    · simp only [copilotCollapse]
      rw [hsw]
      simp
    · have hne : (pyStrip rp == "") = false := by
        cases hv : pyStrip rp == ""
        · rfl
        · exfalso
          have h0 := eq_of_beq hv
          rw [h0] at hsw
          exact absurd hsw (by decide)
      have hcop : (("Copilot" : String) == "") = false := by decide
      simp [copilotCollapse, hsw, hne, hcop]

set_option maxHeartbeats 1600000 in
/-- Alias coverage for the first quarter of the base table. -/
theorem aliasCoverage_chunk1 :
    ((BASE_FALLBACK.take 18).all fun kv =>
      (resolveAgentSlug kv.1 == some kv.2) &&
      (resolveAgentSlug ("module-0-" ++ kv.1) == some kv.2) &&
      (resolveAgentSlug (kv.1 ++ "_gemini") == some kv.2) &&
      (resolveAgentSlug (kv.1 ++ "_ms") == some kv.2)) = true := by
  decide

set_option maxHeartbeats 1600000 in
/-- Alias coverage for the second quarter of the base table. -/
theorem aliasCoverage_chunk2 :
    (((BASE_FALLBACK.drop 18).take 18).all fun kv =>
      (resolveAgentSlug kv.1 == some kv.2) &&
      (resolveAgentSlug ("module-0-" ++ kv.1) == some kv.2) &&
      (resolveAgentSlug (kv.1 ++ "_gemini") == some kv.2) &&
      (resolveAgentSlug (kv.1 ++ "_ms") == some kv.2)) = true := by
  decide

set_option maxHeartbeats 1600000 in
/-- Alias coverage for the third quarter of the base table. -/
theorem aliasCoverage_chunk3 :
    ((((BASE_FALLBACK.drop 18).drop 18).take 18).all fun kv =>
      (resolveAgentSlug kv.1 == some kv.2) &&
      (resolveAgentSlug ("module-0-" ++ kv.1) == some kv.2) &&
      (resolveAgentSlug (kv.1 ++ "_gemini") == some kv.2) &&
      (resolveAgentSlug (kv.1 ++ "_ms") == some kv.2)) = true := by
  decide

set_option maxHeartbeats 1600000 in
/-- Alias coverage for the last quarter of the base table. -/
theorem aliasCoverage_chunk4 :
    ((((BASE_FALLBACK.drop 18).drop 18).drop 18).all fun kv =>
      (resolveAgentSlug kv.1 == some kv.2) &&
      (resolveAgentSlug ("module-0-" ++ kv.1) == some kv.2) &&
      (resolveAgentSlug (kv.1 ++ "_gemini") == some kv.2) &&
      (resolveAgentSlug (kv.1 ++ "_ms") == some kv.2)) = true := by
  decide

/-- **C7**: every base alias or long slug of the fallback catalog resolves
to its agent identity, and so do its `module-0-`-prefixed, `_gemini`- and
`_ms`-suffixed spellings; in particular `cfs`, `module-0-cfs`, `single_cf`
and `cfs_ms` all resolve to `SINGLE_CF_AI_AGENT`. -/
theorem c7_alias_coverage :
    resolveAgentSlug "cfs" = some "SINGLE_CF_AI_AGENT" ∧
    resolveAgentSlug "module-0-cfs" = some "SINGLE_CF_AI_AGENT" ∧
    resolveAgentSlug "single_cf" = some "SINGLE_CF_AI_AGENT" ∧
    resolveAgentSlug "cfs_ms" = some "SINGLE_CF_AI_AGENT" ∧
    (BASE_FALLBACK.all fun kv =>
      (resolveAgentSlug kv.1 == some kv.2) &&
      (resolveAgentSlug ("module-0-" ++ kv.1) == some kv.2) &&
      (resolveAgentSlug (kv.1 ++ "_gemini") == some kv.2) &&
      (resolveAgentSlug (kv.1 ++ "_ms") == some kv.2)) = true := by
  refine ⟨by decide, by decide, by decide, by decide, ?_⟩
  rw [← List.take_append_drop 18 BASE_FALLBACK]
  rw [← List.take_append_drop 18 (BASE_FALLBACK.drop 18)]
  rw [← List.take_append_drop 18 ((BASE_FALLBACK.drop 18).drop 18)]
  rw [List.all_append, List.all_append, List.all_append]
  rw [aliasCoverage_chunk1, aliasCoverage_chunk2, aliasCoverage_chunk3,
    aliasCoverage_chunk4]
  rfl

/-- **C8** (counterexample): `_canon` strips each suffix at most once per
pass, so it is not idempotent: `x_ms_ms` canonicalizes to `x_ms`, whose
canonicalization is `x`. -/
theorem c8_counterexample :
    agentTiersCanon "x_ms_ms" = "x_ms" ∧
    agentTiersCanon "x_ms" = "x" ∧
    agentTiersCanon (agentTiersCanon "x_ms_ms") ≠ agentTiersCanon "x_ms_ms" :=
  ⟨by decide, by decide, by decide⟩

/-- **C8** (amended): canonicalization is total by construction, and it is
idempotent exactly on the inputs whose canonical form is already stripped,
lowercase, and free of the `module-0-` namespace and of the `_gemini` /
`_ms` / `_ai_agent` suffixes (true of every catalog base token); inputs
with stacked prefixes or suffixes violate idempotence. -/
theorem c8_canon_conditionally_idempotent (x : String)
    (h1 : pyStrip (agentTiersCanon x) = agentTiersCanon x)
    (h2 : pyLower (agentTiersCanon x) = agentTiersCanon x)
    (h3 : pyStartsWith (agentTiersCanon x) "module-0-" = false)
    (h4 : pyEndsWith (agentTiersCanon x) "_gemini" = false)
    (h5 : pyEndsWith (agentTiersCanon x) "_ms" = false)
    (h6 : pyEndsWith (agentTiersCanon x) "_ai_agent" = false) :
    agentTiersCanon (agentTiersCanon x) = agentTiersCanon x := by
  revert h1 h2 h3 h4 h5 h6
  generalize agentTiersCanon x = y
  intro h1 h2 h3 h4 h5 h6
  simp [agentTiersCanon, h1, h2, h3, h4, h5, h6]

/-- **C8** witness: the hypotheses of `c8_canon_conditionally_idempotent`
hold at `"module-0-cfs_ms"` and the conclusion evaluates there. -/
theorem c8_witness :
    agentTiersCanon (agentTiersCanon "module-0-cfs_ms") =
      agentTiersCanon "module-0-cfs_ms" :=
  c8_canon_conditionally_idempotent "module-0-cfs_ms"
    (by decide) (by decide) (by decide) (by decide) (by decide) (by decide)

/-- **C9** (counterexample): `"EN_STANDARD"` canonicalizes to the
enterprise channel, but agent resolution returns the pseudo-identity
`ENTERPRISE_LICENSE_STANDARD` rather than `None`, and the gate answers
with an ordinary 403, not an input error. -/
theorem c9_counterexample :
    resolveAgentSlug "EN_STANDARD" = some "ENTERPRISE_LICENSE_STANDARD" ∧
    derivePlatformFromSku "EN_STANDARD" = "Copilot" ∧
    requireEntitlementOr403 availAll dbEmpty "dave@x.com" "EN_STANDARD" =
      GateResult.forbidden "no-enterprise-plan" :=
  ⟨by decide, by decide, by decide⟩

/-- **C9** (amended): every casing of an `en_standard` SKU derives the
enterprise-channel platform `"Copilot"`; but the fallback table maps it to
the pseudo agent identity `ENTERPRISE_LICENSE_STANDARD` — resolution does
not return `None` — and the entitlement gate treats it as an ordinary
agent slug, returning ok or forbidden, never an input error. -/
theorem c9_en_sku_is_pseudo_agent (x : String)
    (hl : pyLower x = "en_standard") (ht : pyStrip x = x) :
    derivePlatformFromSku x = "Copilot" ∧
    resolveAgentSlug x = some "ENTERPRISE_LICENSE_STANDARD" ∧
    ∀ (av : Avail) (db : DB) (email d : String),
      requireEntitlementOr403 av db email x ≠ GateResult.inputError d := by
  have hxne : (x == "") = false := by
    cases hv : x == ""
    · rfl
    · exfalso
      have h0 := eq_of_beq hv
      rw [h0] at hl
      exact absurd hl (by decide)
  refine ⟨?_, ?_, ?_⟩
  · simp [derivePlatformFromSku, hxne, hl]
    decide
  · simp [resolveAgentSlug, ht, hl]
    decide
  · intro av db email d
    exact gateWithSlug_ne_inputError av db email (dropModule0 x)
      ((resolveAgentSlug (dropModule0 x)).getD (pyUpper (dropModule0 x))) d

/-- **C9** witness: the hypotheses of `c9_en_sku_is_pseudo_agent` hold at
`"EN_STANDARD"`. -/
theorem c9_witness :
    derivePlatformFromSku "EN_STANDARD" = "Copilot" ∧
    resolveAgentSlug "EN_STANDARD" = some "ENTERPRISE_LICENSE_STANDARD" ∧
    ∀ (av : Avail) (db : DB) (email d : String),
      requireEntitlementOr403 av db email "EN_STANDARD" ≠
        GateResult.inputError d :=
  c9_en_sku_is_pseudo_agent "EN_STANDARD" (by decide) (by decide)

/-- **C4** (counterexample): `"mystery"` is unknown to the catalog, yet the
gate substitutes `"MYSTERY"` as the slug and performs the grant lookups —
with a tier row present the unresolvable SKU is even allowed — and on the
empty store it yields the very same 403 as the resolvable but unentitled
`"cfs"`: there is no distinct input-error outcome and lookups are not
skipped. -/
theorem c4_counterexample :
    resolveAgentSlug "mystery" = none ∧
    requireEntitlementOr403 availAll dbTierBobGPT "bob@x.com" "mystery" =
      GateResult.ok "MYSTERY" "GPT" ∧
    requireEntitlementOr403 availAll dbEmpty "bob@x.com" "mystery" =
      GateResult.forbidden "not-copilot" ∧
    requireEntitlementOr403 availAll dbEmpty "bob@x.com" "cfs" =
      GateResult.forbidden "not-copilot" :=
  ⟨by decide, by decide, by decide, by decide⟩

/-- **C4** (amended): when the catalog cannot resolve the module-stripped
SKU, `require_entitlement_or_403` substitutes its upper-cased form as the
agent slug and proceeds with the grant lookups unchanged; its outcome is
always ok or forbidden, so unresolvable input is not separated from
"resolved but not entitled". -/
theorem c4_unresolvable_sku_still_looked_up (av : Avail) (db : DB)
    (email sku : String)
    (h : resolveAgentSlug (dropModule0 sku) = none) :
    requireEntitlementOr403 av db email sku =
      gateWithSlug av db email (dropModule0 sku)
        (pyUpper (dropModule0 sku)) ∧
    ∀ d, requireEntitlementOr403 av db email sku ≠
      GateResult.inputError d := by
  constructor
  · show gateWithSlug av db email (dropModule0 sku)
      ((resolveAgentSlug (dropModule0 sku)).getD
        (pyUpper (dropModule0 sku))) = _
    rw [h]
    rfl
  · intro d
    exact gateWithSlug_ne_inputError av db email (dropModule0 sku)
      ((resolveAgentSlug (dropModule0 sku)).getD (pyUpper (dropModule0 sku))) d

/-- **C4** witness: the hypothesis of
`c4_unresolvable_sku_still_looked_up` holds at SKU `"mystery"`. -/
theorem c4_witness :
    requireEntitlementOr403 availAll dbEmpty "bob@x.com" "mystery" =
      gateWithSlug availAll dbEmpty "bob@x.com" (dropModule0 "mystery")
        (pyUpper (dropModule0 "mystery")) ∧
    ∀ d, requireEntitlementOr403 availAll dbEmpty "bob@x.com" "mystery" ≠
      GateResult.inputError d :=
  c4_unresolvable_sku_still_looked_up availAll dbEmpty "bob@x.com" "mystery"
    (by decide)

/-- **C2**: with a single active domain enterprise license and no other
grants present, the decision on a platform of the enterprise/Copilot
family is: `en_standard` allows exactly the agents whose suffix-derived
required tier (default `STANDARD`) is `STANDARD` — a rule that agrees
with `classify_agent_tier` on all 33 catalogued slugs — while
`en_professional` and `en_unlimited` allow every agent; on any platform
not starting with `"Copilot"` every license level yields Deny. -/
theorem c2_enterprise_license_gating
    (email domain slug platform lvl : String) (tc : Option String)
    (aat : Nat)
    (hdom : emailDomain email = some domain)
    (hlow : pyLower domain = domain)
    (htrim : pyStrip domain = domain)
    (hne : domain ≠ "")
    (hlvl : lvl = "en_standard" ∨ lvl = "en_professional" ∨
      lvl = "en_unlimited") :
    (pyStartsWith platform "Copilot" = false →
      checkEntitlement availAll
        (DB.mk [] [] [] [LicRow.mk none domain lvl tc none true aat])
        email slug platform = false) ∧
    (pyStartsWith platform "Copilot" = true → pyStrip platform = platform →
      checkEntitlement availAll
        (DB.mk [] [] [] [LicRow.mk none domain lvl tc none true aat])
        email slug platform =
        (if lvl == "en_standard" then
          ((tierFromSlug slug).getD "STANDARD" == "STANDARD")
        else true)) ∧
    (AGENT_SLUGS.all fun s =>
      classifyAgentTier s == (tierFromSlug s).getD "STANDARD") = true := by
  have hneb : (domain == "") = false := by
    cases hv : domain == ""
    · rfl
    · exact absurd (eq_of_beq hv) hne
  have hbase : ∀ pf, checkEntitlement availAll
      (DB.mk [] [] [] [LicRow.mk none domain lvl tc none true aat])
      email slug pf =
      enterpriseDomainStep true
        (DB.mk [] [] [] [LicRow.mk none domain lvl tc none true aat])
        email slug pf := by
    intro pf
    rw [checkEntitlement_eq_rules]
    have h1 : ruleAllGrant
        (DB.mk [] [] [] [LicRow.mk none domain lvl tc none true aat])
        email pf = false := rfl
    have h2 : hasAgentEntitlementEmail
        (DB.mk [] [] [] [LicRow.mk none domain lvl tc none true aat])
        email slug pf = false := rfl
    have h3 : hasAnyTierForPlatform
        (DB.mk [] [] [] [LicRow.mk none domain lvl tc none true aat])
        email pf = false := rfl
    have h4 : hasEnterpriseEmail
        (DB.mk [] [] [] [LicRow.mk none domain lvl tc none true aat])
        email pf = false := rfl
    rw [h1, h2, h3, h4]
    simp [availAll]
  refine ⟨?_, ?_, by decide⟩
  · intro hP
    rw [hbase]
    unfold enterpriseDomainStep
    rw [hP]
    rfl
  · intro hP hPs
    rw [hbase]
    have hd : pyStrip (pyLower domain) = domain := by rw [hlow, htrim]
    have hga : getActiveEnterpriseLicenseForDomain
        (DB.mk [] [] [] [LicRow.mk none domain lvl tc none true aat]) domain =
        some (LicResult.mk lvl "Copilot" tc) := by
      simp [getActiveEnterpriseLicenseForDomain, hd, hneb, pickLatest]
    have hcc : copilotCollapse platform = "Copilot" := by
      simp only [copilotCollapse]
      rw [hPs, hP]
      rfl
    have hpm : platformMatch platform "Copilot" = true := by
      simp [platformMatch, hcc]
      decide
    unfold enterpriseDomainStep
    rw [hP, hdom]
    simp only [Bool.not_true, if_false, hneb, hga, hpm]
    have e1 : pyLower "en_standard" = "en_standard" := by decide
    have e2 : pyLower "en_professional" = "en_professional" := by decide
    have e3 : pyLower "en_unlimited" = "en_unlimited" := by decide
    rcases hlvl with rfl | rfl | rfl <;> simp [hpm, e1, e2, e3]

/-- **C2** witness: `alice@co.com` under an `en_standard` license for
`co.com` on `Copilot`, target `CAPEX_PLUS`. -/
theorem c2_witness :
    checkEntitlement availAll
      (DB.mk [] [] [] [LicRow.mk none "co.com" "en_standard" none none true 5])
      "alice@co.com" "CAPEX_PLUS" "Copilot" =
      (if ("en_standard" : String) == "en_standard" then
        ((tierFromSlug "CAPEX_PLUS").getD "STANDARD" == "STANDARD")
      else true) :=
  (c2_enterprise_license_gating "alice@co.com" "co.com" "CAPEX_PLUS"
    "Copilot" "en_standard" none 5 (by decide) (by decide) (by decide)
    (by decide) (Or.inl rfl)).2.1 (by decide) (by decide)

/-! ## Plan-name and plan-rank lemmas (for C10) -/

theorem planFromTierCodeEnterprise_sub (t : Option String) :
    planFromTierCodeEnterprise t = none ∨
    planFromTierCodeEnterprise t = some "Enterprise-Unlimited" ∨
    planFromTierCodeEnterprise t = some "Enterprise-Professional" ∨
    planFromTierCodeEnterprise t = some "Enterprise-Standard" := by
  unfold planFromTierCodeEnterprise
  cases t
  · tauto
  · simp only []
    repeat' split
    all_goals tauto

theorem planFromEnSkuLoose_sub (sku : String) :
    planFromEnSkuLoose sku = none ∨
    planFromEnSkuLoose sku = some "Enterprise-Unlimited" ∨
    planFromEnSkuLoose sku = some "Enterprise-Professional" ∨
    planFromEnSkuLoose sku = some "Enterprise-Standard" := by
  unfold planFromEnSkuLoose
  simp only []
  repeat' split
  all_goals tauto

theorem planFromEnSkuExact_sub (sku : String) :
    planFromEnSkuExact sku = none ∨
    planFromEnSkuExact sku = some "Enterprise-Unlimited" ∨
    planFromEnSkuExact sku = some "Enterprise-Professional" ∨
    planFromEnSkuExact sku = some "Enterprise-Standard" := by
  unfold planFromEnSkuExact
  simp only []
  repeat' split
  all_goals tauto

theorem planFromTierCodeExact_sub (t : String) :
    planFromTierCodeExact t = none ∨
    planFromTierCodeExact t = some "Standard" ∨
    planFromTierCodeExact t = some "Plus" ∨
    planFromTierCodeExact t = some "Premium" := by
  unfold planFromTierCodeExact
  simp only []
  repeat' split
  all_goals tauto

theorem tierFromSkuAlias_sub (sku : String) :
    tierFromSkuAlias sku = none ∨
    tierFromSkuAlias sku = some "Standard" ∨
    tierFromSkuAlias sku = some "Plus" ∨
    tierFromSkuAlias sku = some "Premium" := by
  unfold tierFromSkuAlias TIER_ALIASES
  simp only [List.lookup]
  repeat' split
  all_goals tauto

theorem enterpriseNames_of_sub (o : Option String) (p : String)
    (hsub : o = none ∨ o = some "Enterprise-Unlimited" ∨
      o = some "Enterprise-Professional" ∨ o = some "Enterprise-Standard")
    (h : o = some p) :
    p = "Enterprise-Standard" ∨ p = "Enterprise-Professional" ∨
      p = "Enterprise-Unlimited" := by
  subst h
  rcases hsub with h0 | h0 | h0 | h0
  · exact absurd h0 (by simp)
  all_goals injection h0 with h0
  all_goals tauto

theorem individualNames_of_sub (o : Option String) (p : String)
    (hsub : o = none ∨ o = some "Standard" ∨ o = some "Plus" ∨
      o = some "Premium")
    (h : o = some p) :
    p = "Standard" ∨ p = "Plus" ∨ p = "Premium" := by
  subst h
  rcases hsub with h0 | h0 | h0 | h0
  · exact absurd h0 (by simp)
  all_goals injection h0 with h0
  all_goals tauto

theorem pickHighestAux_cases (rank : String → Int) :
    ∀ (l : List String) (acc : Option String × Int),
      (pickHighestAux rank l acc).1 = acc.1 ∨
      ∃ p, (pickHighestAux rank l acc).1 = some p ∧ p ∈ l := by
  intro l
  induction l with
  | nil => intro acc; exact Or.inl rfl
  | cons q rest ih =>
    intro acc
    unfold pickHighestAux
    by_cases h : rank q > acc.2
    · simp only [if_pos h]
      rcases ih (some q, rank q) with h1 | ⟨p, hp1, hp2⟩
      · exact Or.inr ⟨q, h1, List.mem_cons_self _ _⟩
      · exact Or.inr ⟨p, hp1, List.mem_cons_of_mem _ hp2⟩
    · simp only [if_neg h]
      rcases ih acc with h1 | ⟨p, hp1, hp2⟩
      · exact Or.inl h1
      · exact Or.inr ⟨p, hp1, List.mem_cons_of_mem _ hp2⟩

theorem pickHighest_mem (rank : String → Int) (l : List String) (p : String)
    (h : pickHighest rank l = some p) : p ∈ l := by
  unfold pickHighest at h
  rcases pickHighestAux_cases rank l (none, -1) with h1 | ⟨q, hq1, hq2⟩
  · rw [h] at h1
    exact absurd h1 (by simp)
  · rw [h] at hq1
    obtain rfl : p = q := by injection hq1
    exact hq2

theorem pickHighestAux_isSome (rank : String → Int) :
    ∀ (l : List String) (acc : Option String × Int),
      acc.1.isSome → ((pickHighestAux rank l acc).1).isSome := by
  intro l
  induction l with
  | nil => intro acc hacc; exact hacc
  | cons q rest ih =>
    intro acc hacc
    unfold pickHighestAux
    by_cases h : rank q > acc.2
    · simp only [if_pos h]
      exact ih (some q, rank q) rfl
    · simp only [if_neg h]
      exact ih acc hacc

theorem pickHighest_some_mem (rank : String → Int) (l : List String)
    (hne : l ≠ []) (hq : ∀ p ∈ l, -1 < rank p) :
    ∃ p, pickHighest rank l = some p ∧ p ∈ l := by
  have hs : (pickHighest rank l).isSome := by
    cases l with
    | nil => exact absurd rfl hne
    | cons q rest =>
      unfold pickHighest pickHighestAux
      have hgt : rank q > -1 := hq q (List.mem_cons_self _ _)
      simp only [if_pos hgt]
      exact pickHighestAux_isSome rank rest (some q, rank q) rfl
  obtain ⟨p, hp⟩ := Option.isSome_iff_exists.mp hs
  exact ⟨p, hp, pickHighest_mem rank l p hp⟩

theorem plansFromEnterpriseLicenses_names (db : DB) (d p : String)
    (h : p ∈ plansFromEnterpriseLicenses db d) :
    p = "Enterprise-Standard" ∨ p = "Enterprise-Professional" ∨
      p = "Enterprise-Unlimited" := by
  simp only [plansFromEnterpriseLicenses] at h
  split at h
  · exact absurd h (by simp)
  · obtain ⟨r, _, hr⟩ := List.mem_filterMap.mp h
    revert hr
    cases hm : planFromTierCodeEnterprise r.tier_code with
    | some q =>
      intro hr
      obtain rfl : q = p := by injection hr
      exact enterpriseNames_of_sub _ _ (planFromTierCodeEnterprise_sub _) hm
    | none =>
      intro hr
      exact enterpriseNames_of_sub _ _ (planFromEnSkuLoose_sub _) hr

theorem enterpriseNames_rankOf_pos (p : String)
    (h : p = "Enterprise-Standard" ∨ p = "Enterprise-Professional" ∨
      p = "Enterprise-Unlimited") :
    -1 < rankOf ENTERPRISE_RANK p := by
  rcases h with rfl | rfl | rfl <;> decide

theorem enterpriseNames_planRank (p : String)
    (h : p = "Enterprise-Standard" ∨ p = "Enterprise-Professional" ∨
      p = "Enterprise-Unlimited") :
    40 ≤ planRank (some p) := by
  rcases h with rfl | rfl | rfl <;> decide

theorem individualNames_planRank (p : String)
    (h : p = "Standard" ∨ p = "Plus" ∨ p = "Premium") :
    planRank (some p) ≤ 30 := by
  rcases h with rfl | rfl | rfl <;> decide

theorem enterpriseEntitlementsForEmail_rank (db : DB) (email : String)
    (e : EnterpriseEnt)
    (h : enterpriseEntitlementsForEmail db email = some e) :
    40 ≤ planRank e.plan := by
  simp only [enterpriseEntitlementsForEmail] at h
  split at h
  · exact absurd h (by simp)
  · split at h
    · exact absurd h (by simp)
    · rename_i domain hdom
      split at h
      · exact absurd h (by simp)
      · split at h
        · -- primary: plans from enterprise_licenses, nonempty
          rename_i hplans
          injection h with h
          subst h
          have hne : plansFromEnterpriseLicenses db domain ≠ [] := by
            intro h0
            rw [h0] at hplans
            simp at hplans
          obtain ⟨p, hpk, hpmem⟩ := pickHighest_some_mem
            (rankOf ENTERPRISE_RANK) (plansFromEnterpriseLicenses db domain)
            hne (fun q hq => enterpriseNames_rankOf_pos q
              (plansFromEnterpriseLicenses_names db domain q hq))
          show 40 ≤ planRank (pickHighest (rankOf ENTERPRISE_RANK) _)
          rw [hpk]
          exact enterpriseNames_planRank p
            (plansFromEnterpriseLicenses_names db domain p hpmem)
        · split at h
          · exact absurd h (by simp)
          · -- fallback: en_* subscriptions of the email
            rename_i hsubs
            injection h with h
            subst h
            set L := (db.subscriptions.filter fun r =>
                r.user_email == pyLower (pyStrip email) &&
                  r.status == "active" && ilikeEnAny r.sku).filterMap
              (fun r => planFromEnSkuLoose r.sku) with hL
            have hLne : L ≠ [] := by
              intro h0
              rw [h0] at hsubs
              simp at hsubs
            obtain ⟨p, hpk, hpmem⟩ := pickHighest_some_mem
              (rankOf ENTERPRISE_RANK) L hLne
              (fun q hq => by
                obtain ⟨r, _, hr⟩ := List.mem_filterMap.mp hq
                exact enterpriseNames_rankOf_pos q
                  (enterpriseNames_of_sub _ _ (planFromEnSkuLoose_sub _) hr))
            show 40 ≤ planRank (pickHighest (rankOf ENTERPRISE_RANK) L)
            rw [hpk]
            obtain ⟨r, _, hr⟩ := List.mem_filterMap.mp hpmem
            exact enterpriseNames_planRank p
              (enterpriseNames_of_sub _ _ (planFromEnSkuLoose_sub _) hr)


theorem resolveEnterpriseFallback_rank (db : DB) (email : String)
    (e : EnterpriseEnt) (h : resolveEnterpriseFallback db email = some e) :
    40 ≤ planRank e.plan := by
  simp only [resolveEnterpriseFallback] at h
  split at h
  · exact absurd h (by simp)
  · split at h
    · rename_i p hpk
      injection h with h
      subst h
      show 40 ≤ planRank (some p)
      have hpmem := pickHighest_mem _ _ _ hpk
      obtain ⟨sku, _, hr⟩ := List.mem_filterMap.mp hpmem
      exact enterpriseNames_planRank p
        (enterpriseNames_of_sub _ _ (planFromEnSkuExact_sub _) hr)
    · exact absurd h (by simp)

theorem individualEntitlementsForEmail_rank (db : DB) (email : String)
    (i : IndividualEnt)
    (h : individualEntitlementsForEmail db email = some i) :
    planRank (some i.plan) ≤ 30 := by
  simp only [individualEntitlementsForEmail] at h
  split at h
  · exact absurd h (by simp)
  · split at h
    · exact absurd h (by simp)
    · injection h with h
      subst h
      set T := (db.subscriptions.filter fun r =>
          r.user_email == pyLower (pyStrip email) &&
            r.status == "active").filterMap
        (fun r => if pyStartsWith (pyLower r.sku) "en_" = true then none
          else tierFromSkuAlias (pyLower r.sku)) with hT
      show planRank (some ((pickHighest (rankOf INDIVIDUAL_RANK) T).getD
        "Standard")) ≤ 30
      cases hpk : pickHighest (rankOf INDIVIDUAL_RANK) T with
      | none => decide
      | some p =>
        show planRank (some p) ≤ 30
        have hpmem := pickHighest_mem _ _ _ hpk
        obtain ⟨r, _, hr⟩ := List.mem_filterMap.mp hpmem
        split at hr
        · exact absurd hr (by simp)
        · exact individualNames_planRank p
            (individualNames_of_sub _ _ (tierFromSkuAlias_sub _) hr)

theorem resolveIndividualFallback_rank (db : DB) (email : String)
    (i : IndividualEnt) (h : resolveIndividualFallback db email = some i) :
    planRank (some i.plan) ≤ 30 := by
  simp only [resolveIndividualFallback] at h
  split at h
  · rename_i p hbest2
    injection h with h
    subst h
    show planRank (some p) ≤ 30
    split at hbest2
    · injection hbest2 with hbest2
      subst hbest2
      decide
    · have hpmem := pickHighest_mem _ _ _ hbest2
      obtain ⟨t, _, hr⟩ := List.mem_filterMap.mp hpmem
      exact individualNames_planRank p
        (individualNames_of_sub _ _ (planFromTierCodeExact_sub _) hr)
  · exact absurd h (by simp)

theorem entEnterpriseCombined_rank (db : DB) (email : String)
    (e : EnterpriseEnt) (h : entEnterpriseCombined db email = some e) :
    40 ≤ planRank e.plan := by
  unfold entEnterpriseCombined at h
  cases hp : enterpriseEntitlementsForEmail db email with
  | some x =>
    rw [hp] at h
    have h2 : some x = some e := h
    injection h2 with h2
    subst h2
    exact enterpriseEntitlementsForEmail_rank db email _ hp
  | none =>
    rw [hp] at h
    have h2 : resolveEnterpriseFallback db email = some e := h
    exact resolveEnterpriseFallback_rank db email e h2

theorem entIndividualCombined_rank (db : DB) (email : String)
    (i : IndividualEnt) (h : entIndividualCombined db email = some i) :
    planRank (some i.plan) ≤ 30 := by
  unfold entIndividualCombined at h
  cases hp : individualEntitlementsForEmail db email with
  | some x =>
    rw [hp] at h
    have h2 : some x = some i := h
    injection h2 with h2
    subst h2
    exact individualEntitlementsForEmail_rank db email _ hp
  | none =>
    rw [hp] at h
    have h2 : resolveIndividualFallback db email = some i := h
    exact resolveIndividualFallback_rank db email i h2

/-- **C10**: every enterprise plan rank (40–60) strictly exceeds every
individual plan rank (10–30), and the `>=` comparison in
`resolve_entitlements` breaks ties in favour of the enterprise record, so
whenever both the enterprise and the individual side resolve to a
non-`None` entitlement the returned scope is `"enterprise"`, for
`precedence = "rank"` as well as `precedence = "enterprise"`. -/
theorem c10_enterprise_always_wins :
    (∀ pe ∈ ["Enterprise-Standard", "Enterprise-Professional",
        "Enterprise-Unlimited"],
      ∀ pi ∈ ["Standard", "Plus", "Premium"],
        planRank (some pi) < planRank (some pe)) ∧
    (∀ (db : DB) (email precedence : String),
      precedence = "rank" ∨ precedence = "enterprise" →
      entEnterpriseCombined db email ≠ none →
      entIndividualCombined db email ≠ none →
      (resolveEntitlements db email precedence).scope = "enterprise") := by
  constructor
  · decide
  · intro db email precedence _hprec hE hI
    rcases hE2 : entEnterpriseCombined db email with _ | e
    · exact absurd hE2 hE
    rcases hI2 : entIndividualCombined db email with _ | i
    · exact absurd hI2 hI
    have hrE := entEnterpriseCombined_rank db email e hE2
    have hrI := entIndividualCombined_rank db email i hI2
    have hge : planRank e.plan ≥ planRank (some i.plan) :=
      le_trans hrI (le_trans (by norm_num) hrE)
    unfold resolveEntitlements
    rw [hE2, hI2]
    show (if (precedence == "enterprise") = true then
        (⟨"enterprise", e.plan⟩ : ResolvedEnt)
      else if planRank e.plan ≥ planRank (some i.plan) then
        ⟨"enterprise", e.plan⟩
      else ⟨"individual", some i.plan⟩).scope = "enterprise"
    by_cases hp : (precedence == "enterprise") = true
    · rw [if_pos hp]
    · rw [if_neg hp, if_pos hge]

/-- **C10** witness: `eve@co.com` holds both an individual `plus` tier
subscription and a domain enterprise license; the resolver returns scope
`"enterprise"` under both precedence modes. -/
theorem c10_witness :
    (resolveEntitlements dbBothScopes "eve@co.com" "rank").scope =
      "enterprise" ∧
    (resolveEntitlements dbBothScopes "eve@co.com" "enterprise").scope =
      "enterprise" :=
  ⟨c10_enterprise_always_wins.2 dbBothScopes "eve@co.com" "rank"
    (Or.inl rfl) (by decide) (by decide),
   c10_enterprise_always_wins.2 dbBothScopes "eve@co.com" "enterprise"
    (Or.inr rfl) (by decide) (by decide)⟩

end Gateway
